import Mathlib

/-!
Shallow embedding of the phosaic signaling relay (`src/server/server.js`,
first document) and of the subordinate display client
(`src/subordinate/script.js`, fullscreen version), together with theorems
settling the specification claims about registration, routing, disconnect
cleanup and the subordinate's geometry-capture ordering.

Modelling conventions:
* A JS `Map` is an association list in insertion order; `set` replaces the
  value of an existing key in place and otherwise appends, `delete` removes
  the entry, `get`/`has` scan for the key.  Keys of the two registry tables
  are `Option String` because `register-coordinator` stores `data.id`,
  which may be `undefined` (`none`) when the field is absent.
* A connection handle (`ws`) is identified by a `Nat`; its mutable `ws.id`
  field lives in a per-connection table of the server state (absent and
  `undefined` coincide, which matches every read the server performs).
* `Math.random().toString(36).substring(2, 15)` is an external source of
  randomness: the drawn token is passed to the handler as the `rand`
  argument, and `generateUniqueId` consumes it without consulting any
  state — exactly as the source performs no collision check.
* `ws.send(JSON.stringify(obj))` is modelled as an `Effect.send` carrying
  the record of fields of the serialized object literal; a field that the
  literal does not mention is `none` (absent key).  `console.log` calls
  become `Effect.log` entries.
* An unparseable frame makes `JSON.parse` throw inside the `message`
  handler; the frame-level handler therefore returns `Except.error` and
  performs no state change and no effect.
-/

namespace Phosaic

/-- Lookup in a JS `Map` represented as an association list (`Map.get`). -/
def mapGet {κ ν : Type} [BEq κ] : List (κ × ν) → κ → Option ν
  | [], _ => none
  | p :: m, k => if p.1 == k then some p.2 else mapGet m k

/-- Key-membership test of a JS `Map` (`Map.has`). -/
def mapHas {κ ν : Type} [BEq κ] (m : List (κ × ν)) (k : κ) : Bool :=
  (mapGet m k).isSome

/-- Insertion into a JS `Map` (`Map.set`): replaces the first entry with the
given key in place, otherwise appends a fresh entry. -/
def mapSet {κ ν : Type} [BEq κ] : List (κ × ν) → κ → ν → List (κ × ν)
  | [], k, v => [(k, v)]
  | p :: m, k, v => if p.1 == k then (k, v) :: m else p :: mapSet m k v

/-- Removal from a JS `Map` (`Map.delete`). -/
def mapDelete {κ ν : Type} [BEq κ] : List (κ × ν) → κ → List (κ × ν)
  | [], _ => []
  | p :: m, k => if p.1 == k then mapDelete m k else p :: mapDelete m k

/-- Inbound signaling envelope as parsed by `JSON.parse`: the fields the
relay ever reads (`src/server/server.js` reads `data.type`, `data.id`,
`data.offer`, `data.answer`, `data.candidate`; `data.width`/`data.height`
are sent by the subordinate client but never read by the relay).  Opaque
JSON bodies are `String`s. -/
structure Data where
  type : String
  id : Option String := none
  offer : Option String := none
  answer : Option String := none
  candidate : Option String := none
  width : Option Nat := none
  height : Option Nat := none
deriving Repr, DecidableEq

/-- Outbound envelope: the record of fields of the object literal the relay
serializes with `JSON.stringify`; a field the literal does not mention is
`none`.  The relay's literals are `\x7btype, id\x7d`, `\x7btype, offer\x7d`,
`\x7btype, answer\x7d` and `\x7btype, candidate\x7d`; no literal in
`server.js` carries a `sourceId` key. -/
structure OutEnvelope where
  type : String
  id : Option String := none
  offer : Option String := none
  answer : Option String := none
  candidate : Option String := none
  sourceId : Option String := none
deriving Repr, DecidableEq

/-- Observable actions of the relay while handling one event: a
`ws.send(JSON.stringify msg)` to a connection, or a `console.log`. -/
inductive Effect where
  | send (dest : Nat) (msg : OutEnvelope)
  | log (line : String)
deriving Repr, DecidableEq

/-- Messages sent by the relay, in order, among a list of effects. -/
def sends (effs : List Effect) : List (Nat × OutEnvelope) :=
  effs.filterMap fun e =>
    match e with
    | .send t m => some (t, m)
    | .log _ => none

/-- Log lines emitted, in order, among a list of effects. -/
def logs (effs : List Effect) : List String :=
  effs.filterMap fun e =>
    match e with
    | .send _ _ => none
    | .log l => some l

/-- Relay state: the two registry tables (`subordinates`, `coordinators`)
and the mutable `ws.id` field of each connection. -/
structure ServerState where
  subordinates : List (Option String × Nat)
  coordinators : List (Option String × Nat)
  wsId : List (Nat × Option String)
deriving Repr, DecidableEq

/-- Relay state at startup: both tables empty, no `ws.id` assigned. -/
def initState : ServerState := ⟨[], [], []⟩

/-- Current value of the connection's `ws.id` field (`none` both when the
field was never assigned and when it was assigned `undefined`; the server
only ever reads the value, so the two coincide). -/
def wsIdOf (st : ServerState) (c : Nat) : Option String :=
  (mapGet st.wsId c).join

/-- Identifier generator of `server.js`:
`Math.random().toString(36).substring(2, 15)`.  The token drawn from
`Math.random` is the argument; no registry state is consulted and no
collision check is performed. -/
def generateUniqueId (rand : String) : String := rand

/-- Rendering of a possibly-`undefined` string in a template literal. -/
def showOpt : Option String → String
  | some s => s
  | none => "undefined"

/-- Resolution of an `ice-candidate` target:
`subordinates.has(data.id) ? subordinates.get(data.id) : coordinators.get(data.id)`. -/
def iceTarget (st : ServerState) (k : Option String) : Option Nat :=
  if mapHas st.subordinates k then mapGet st.subordinates k
  else mapGet st.coordinators k

/-- Body of the `message` handler after a successful `JSON.parse`: the
`switch (data.type)` of `src/server/server.js` lines 28-88.  `c` is the
receiving connection, `rand` the token drawn by `Math.random` (used only by
`register-subordinate`).  Returns the successor state and the effects in
program order. -/
def handleData (st : ServerState) (c : Nat) (rand : String) (d : Data) :
    ServerState × List Effect :=
  let recv := Effect.log "received: %s"
  if d.type = "register-subordinate" then
    let id := generateUniqueId rand
    ({ st with wsId := mapSet st.wsId c (some id),
               subordinates := mapSet st.subordinates (some id) c },
     [recv, .log ("Subordinate registered with id " ++ id),
      .send c { type := "registered", id := some id }])
  else if d.type = "register-coordinator" then
    let id := d.id
    ({ st with wsId := mapSet st.wsId c id,
               coordinators := mapSet st.coordinators id c },
     [recv, .log ("Coordinator registered for id " ++ showOpt id)])
  else if d.type = "offer" then
    match mapGet st.subordinates d.id with
    | some t =>
        (st, [recv, .log ("Forwarding offer to subordinate " ++ showOpt d.id),
              .send t { type := "offer", offer := d.offer }])
    | none =>
        (st, [recv, .log ("Subordinate " ++ showOpt d.id ++ " not found")])
  else if d.type = "answer" then
    match mapGet st.coordinators d.id with
    | some t =>
        (st, [recv, .log ("Forwarding answer to coordinator for " ++ showOpt d.id),
              .send t { type := "answer", answer := d.answer }])
    | none =>
        (st, [recv, .log ("Coordinator for " ++ showOpt d.id ++ " not found")])
  else if d.type = "ice-candidate" then
    let source := if mapHas st.subordinates (wsIdOf st c) then "subordinate"
                  else "coordinator"
    match iceTarget st d.id with
    | some t =>
        (st, [recv,
              .log ("Forwarding ICE candidate to " ++ showOpt d.id ++ " from " ++ source),
              .send t { type := "ice-candidate", candidate := d.candidate }])
    | none => (st, [recv])
  else
    (st, [recv, .log ("Unknown message type: " ++ d.type)])

/-- Failure raised when `JSON.parse` throws on a malformed frame. -/
inductive JsError where
  | parseError
deriving Repr, DecidableEq

/-- Frame-level `message` handler: `JSON.parse` is the first statement and
is not guarded by any try/catch, so a malformed frame (`none`) makes the
handler throw before any logging or state change; a parsed frame is handled
by the `switch`. -/
def handleFrame (st : ServerState) (c : Nat) (rand : String) (frame : Option Data) :
    Except JsError (ServerState × List Effect) :=
  match frame with
  | none => .error .parseError
  | some d => .ok (handleData st c rand d)

/-- Handler of the `close` event (`src/server/server.js` lines 90-100):
deletes the entry keyed by the connection's current `ws.id` from each table
that holds one. -/
def handleClose (st : ServerState) (c : Nat) : ServerState × List Effect :=
  let k := wsIdOf st c
  let subsStep :=
    if mapHas st.subordinates k then
      (mapDelete st.subordinates k,
       [Effect.log ("Subordinate " ++ showOpt k ++ " unregistered")])
    else (st.subordinates, [])
  let coordStep :=
    if mapHas st.coordinators k then
      (mapDelete st.coordinators k,
       [Effect.log ("Coordinator for " ++ showOpt k ++ " unregistered")])
    else (st.coordinators, [])
  ({ st with subordinates := subsStep.1, coordinators := coordStep.1 },
   Effect.log "Client disconnected" :: (subsStep.2 ++ coordStep.2))

/-- External events driving the relay: arrival of a frame on a connection
(with the random token the handler would draw), or a connection closing. -/
inductive Event where
  | msg (c : Nat) (rand : String) (frame : Option Data)
  | close (c : Nat)
deriving Repr, DecidableEq

/-- State transition of one event.  A malformed frame leaves the state
unchanged (the handler throws before any mutation). -/
def step (st : ServerState) (e : Event) : ServerState :=
  match e with
  | .msg c rand frame =>
      match handleFrame st c rand frame with
      | .ok p => p.1
      | .error _ => st
  | .close c => (handleClose st c).1

/-- Relay state reached from startup by a sequence of events. -/
def run (evs : List Event) : ServerState :=
  evs.foldl step initState

/-! Subordinate display client (`src/subordinate/script.js`, the fullscreen
version: the document containing `connectWebSocket` and
`handleFullscreenComplete`).  Only the signaling-relevant state is
embedded: the `ws`/`displaySize`/`myId`/`coordinatorId` globals and the
messages sent on the signaling channel.  UI work (QR rendering,
refresh-on-tap, video element handling) has no effect on these. -/

/-- Messages the subordinate client sends on its signaling channel, with
exactly the fields of the serialized object literals. -/
inductive ClientMsg where
  | registerSubordinate (width height : Nat)
  | answerMsg (answer : String) (targetId : Option String) (sourceId : Option String)
  | iceMsg (candidate : String) (targetId : Option String)
deriving Repr, DecidableEq

/-- Client-side globals of `script.js`: `ws` (created or not, `onopen`
fired or not), `displaySize`, `myId`, `coordinatorId`, plus the trace of
messages sent on the channel. -/
structure ClientState where
  wsCreated : Bool
  wsOpened : Bool
  displaySize : Option (Nat × Nat)
  myId : Option String
  coordinatorId : Option String
  sent : List ClientMsg
deriving Repr, DecidableEq

/-- Client state at page load: `ws = null`, `displaySize = null`,
identifiers unset, nothing sent. -/
def initClient : ClientState :=
  ⟨false, false, none, none, none, []⟩

/-- Embedding of `connectWebSocket()`: returns early if `ws` already
exists; logs and returns without connecting if `displaySize` was not
captured; otherwise creates the socket. -/
def connectWebSocket (s : ClientState) : ClientState :=
  if s.wsCreated then s
  else
    match s.displaySize with
    | none => s
    | some _ => { s with wsCreated := true }

/-- Embedding of `handleFullscreenComplete()` after the settle delay:
captures `displaySize` from the environment's current dimensions, then
calls `connectWebSocket()`. -/
def handleFullscreenComplete (s : ClientState) (w h : Nat) : ClientState :=
  connectWebSocket { s with displaySize := some (w, h) }

/-- External events driving the client: fullscreen capture completing with
the environment's dimensions, the socket's `onopen` callback, a
`registered` envelope, an `offer` envelope (`ok` tells whether the
negotiation promise chain succeeds; `ans` is the body `createAnswer`
produces), or a local ICE candidate from the peer connection. -/
inductive CEvent where
  | fullscreenComplete (w h : Nat)
  | wsOpen
  | registeredMsg (id : String)
  | offerMsg (sourceId : Option String) (ans : String) (ok : Bool)
  | localIceCandidate (cand : String)
deriving Repr, DecidableEq

/-- Client transition for one event.
* `fullscreenComplete` is `handleFullscreenComplete`.
* `wsOpen` is `ws.onopen`: it fires once on a created socket and sends
  `register-subordinate` with `displaySize.width`/`displaySize.height`
  (reading those fields of a null `displaySize` would throw, so no message
  is sent in that impossible branch).
* `registeredMsg` stores the assigned identifier in `myId`.
* `offerMsg` stores `data.sourceId` in `coordinatorId` and, when the
  negotiation succeeds, sends the answer `\x7btype, answer, targetId,
  sourceId\x7d` guarded by `if (ws)`.
* `localIceCandidate` sends `\x7btype, candidate, targetId\x7d`, guarded by
  `if (event.candidate && ws)`.
Socket callbacks and inbound envelopes cannot occur before the socket
exists, hence the `wsCreated` guards. -/
def cstep (s : ClientState) (e : CEvent) : ClientState :=
  match e with
  | .fullscreenComplete w h => handleFullscreenComplete s w h
  | .wsOpen =>
      if s.wsCreated && !s.wsOpened then
        match s.displaySize with
        | some wh =>
            { s with wsOpened := true,
                     sent := s.sent ++ [.registerSubordinate wh.1 wh.2] }
        | none => { s with wsOpened := true }
      else s
  | .registeredMsg id =>
      if s.wsCreated then { s with myId := some id } else s
  | .offerMsg srcId ans ok =>
      if s.wsCreated then
        let s' := { s with coordinatorId := srcId }
        if ok then
          { s' with sent := s'.sent ++ [.answerMsg ans s'.coordinatorId s'.myId] }
        else s'
      else s
  | .localIceCandidate cand =>
      if s.wsCreated then
        { s with sent := s.sent ++ [.iceMsg cand s.coordinatorId] }
      else s

/-- Client state reached from page load by a sequence of events. -/
def crun (evs : List CEvent) : ClientState :=
  evs.foldl cstep initClient

/-- Both registry tables have pairwise-distinct keys. -/
def tablesNodup (st : ServerState) : Prop :=
  (st.subordinates.map Prod.fst).Nodup ∧ (st.coordinators.map Prod.fst).Nodup

/-- Number of registry entries a connection handle occupies across the two
tables. -/
def entryCount (st : ServerState) (c : Nat) : Nat :=
  (st.subordinates.filter (fun p => p.2 == c)).length +
  (st.coordinators.filter (fun p => p.2 == c)).length

/-- Client invariant: the socket exists only after geometry capture, and
nothing is sent before the socket exists. -/
def clientInv (s : ClientState) : Prop :=
  (s.wsCreated = true → s.displaySize.isSome = true)
  ∧ (s.wsCreated = false → s.sent = [])

/-- Trace registering connection 1 as subordinate `x`. -/
def evsSub : List Event :=
  [Event.msg 1 "x" (some { type := "register-subordinate" })]

/-- Trace registering connection 1 as subordinate `x` and connection 0 as
coordinator `c`. -/
def evsPair : List Event :=
  [Event.msg 1 "x" (some { type := "register-subordinate" }),
   Event.msg 0 "r0" (some { type := "register-coordinator", id := some "c" })]

/-- Trace in which the random generator repeats the token `a`: connection 5
registers as subordinate `a`, then connection 7 draws the same token. -/
def evsCollision : List Event :=
  [Event.msg 5 "a" (some { type := "register-subordinate" }),
   Event.msg 7 "a" (some { type := "register-subordinate" })]

/-- Trace in which connection 0 registers as a subordinate and then as a
coordinator. -/
def evsBothRoles : List Event :=
  [Event.msg 0 "a" (some { type := "register-subordinate" }),
   Event.msg 0 "r" (some { type := "register-coordinator", id := some "b" })]

/-- Trace in which connection 1 registers twice as a subordinate (ids `a`
then `b`) and disconnects: the close handler only removes the entry keyed
by the current `ws.id`, which is `b`. -/
def evsStale : List Event :=
  [Event.msg 1 "a" (some { type := "register-subordinate" }),
   Event.msg 1 "b" (some { type := "register-subordinate" }),
   Event.close 1]

/-! Association-list lemmas for the JS `Map` model. -/

theorem mapHas_eq_false_iff {κ ν : Type} [BEq κ] (m : List (κ × ν)) (k : κ) :
    mapHas m k = false ↔ mapGet m k = none := by
  unfold mapHas
  cases mapGet m k <;> simp

theorem mapGet_mapDelete_self {κ ν : Type} [BEq κ] [LawfulBEq κ]
    (m : List (κ × ν)) (k : κ) : mapGet (mapDelete m k) k = none := by
  induction m with
  | nil => rfl
  | cons p m ih =>
      by_cases h : p.1 = k
      · simp [mapDelete, h, ih]
      · have hb : (p.1 == k) = false := by simp [h]
        simp [mapDelete, mapGet, hb, ih]

theorem mapGet_mapDelete_ne {κ ν : Type} [BEq κ] [LawfulBEq κ]
    (m : List (κ × ν)) (k k' : κ) (h : k' ≠ k) :
    mapGet (mapDelete m k) k' = mapGet m k' := by
  induction m with
  | nil => rfl
  | cons p m ih =>
      cases hqk : (p.1 == k) with
      | true =>
          have hqk' : (p.1 == k') = false := by
            have hp : p.1 = k := eq_of_beq hqk
            rw [hp]
            simp
            exact fun hk => h hk.symm
          simp [mapDelete, hqk, mapGet, hqk', ih]
      | false =>
          simp [mapDelete, hqk, mapGet, ih]

theorem mapGet_mapSet_self {κ ν : Type} [BEq κ] [LawfulBEq κ]
    (m : List (κ × ν)) (k : κ) (v : ν) : mapGet (mapSet m k v) k = some v := by
  induction m with
  | nil => simp [mapSet, mapGet]
  | cons p m ih =>
      by_cases h : p.1 = k
      · simp [mapSet, h, mapGet]
      · have hb : (p.1 == k) = false := by simp [h]
        simp [mapSet, hb, mapGet, ih]

theorem mapGet_mapSet_ne {κ ν : Type} [BEq κ] [LawfulBEq κ]
    (m : List (κ × ν)) (k k' : κ) (v : ν) (h : k' ≠ k) :
    mapGet (mapSet m k v) k' = mapGet m k' := by
  induction m with
  | nil =>
      have hb : (k == k') = false := by
        simp
        exact fun hk => h hk.symm
      simp [mapSet, mapGet, hb]
  | cons p m ih =>
      by_cases hpk : p.1 = k
      · have hb : (k == k') = false := by
          simp
          exact fun hk => h hk.symm
        simp [mapSet, hpk, mapGet, hb]
      · have hbk : (p.1 == k) = false := by simp [hpk]
        simp [mapSet, hbk, mapGet, ih]

theorem mapHas_cons {κ ν : Type} [BEq κ] (p : κ × ν) (m : List (κ × ν)) (k : κ) :
    mapHas (p :: m) k = ((p.1 == k) || mapHas m k) := by
  cases hqk : (p.1 == k) <;> simp [mapHas, mapGet, hqk]

theorem mapHas_false_not_mem_keys {κ ν : Type} [BEq κ] [LawfulBEq κ]
    (m : List (κ × ν)) (k : κ)
    (h : mapHas m k = false) : k ∉ m.map Prod.fst := by
  induction m with
  | nil => simp
  | cons p m ih =>
      rw [mapHas_cons] at h
      simp only [Bool.or_eq_false_iff] at h
      obtain ⟨h1, h2⟩ := h
      intro hk
      rw [List.map_cons] at hk
      rcases List.mem_cons.mp hk with h' | h'
      · rw [h'] at h1
        simp at h1
      · exact ih h2 h'

theorem keys_mapSet {κ ν : Type} [BEq κ] [LawfulBEq κ]
    (m : List (κ × ν)) (k : κ) (v : ν) :
    (mapSet m k v).map Prod.fst =
      if mapHas m k then m.map Prod.fst else m.map Prod.fst ++ [k] := by
  induction m with
  | nil => simp [mapSet, mapHas, mapGet]
  | cons p m ih =>
      cases hqk : (p.1 == k) with
      | true =>
          have hp : p.1 = k := eq_of_beq hqk
          simp [mapSet, hqk, mapHas_cons, hp]
      | false =>
          rw [show mapSet (p :: m) k v = p :: mapSet m k v by simp [mapSet, hqk]]
          rw [List.map_cons, List.map_cons, ih, mapHas_cons, hqk]
          cases hm : mapHas m k <;> simp

theorem mapSet_keys_nodup {κ ν : Type} [BEq κ] [LawfulBEq κ]
    (m : List (κ × ν)) (k : κ) (v : ν)
    (h : (m.map Prod.fst).Nodup) : ((mapSet m k v).map Prod.fst).Nodup := by
  rw [keys_mapSet]
  cases hm : mapHas m k with
  | true =>
      rw [if_pos rfl]
      exact h
  | false =>
      rw [if_neg (by simp)]
      rw [List.nodup_append]
      refine ⟨h, List.nodup_singleton k, ?_⟩
      intro a ha hb
      rw [List.mem_singleton] at hb
      subst hb
      exact mapHas_false_not_mem_keys m a hm ha

theorem mapDelete_sublist {κ ν : Type} [BEq κ] (m : List (κ × ν)) (k : κ) :
    (mapDelete m k).Sublist m := by
  induction m with
  | nil => simp [mapDelete]
  | cons p m ih =>
      cases hqk : (p.1 == k) with
      | true =>
          simpa [mapDelete, hqk] using ih.cons p
      | false =>
          simpa [mapDelete, hqk] using ih.cons₂ p

theorem mapDelete_keys_nodup {κ ν : Type} [BEq κ]
    (m : List (κ × ν)) (k : κ)
    (h : (m.map Prod.fst).Nodup) : ((mapDelete m k).map Prod.fst).Nodup :=
  List.Nodup.sublist ((mapDelete_sublist m k).map Prod.fst) h

theorem mapSet_of_not_has {κ ν : Type} [BEq κ] (m : List (κ × ν)) (k : κ) (v : ν)
    (h : mapHas m k = false) : mapSet m k v = m ++ [(k, v)] := by
  induction m with
  | nil => rfl
  | cons p m ih =>
      by_cases hb : (p.1 == k) = true
      · exfalso
        unfold mapHas mapGet at h
        simp [hb] at h
      · have hb' : (p.1 == k) = false := by
          cases hq : (p.1 == k)
          · rfl
          · exact absurd hq hb
        unfold mapHas mapGet at h
        simp [hb'] at h
        simp [mapSet, hb']
        exact ih (by unfold mapHas; simp [h])

theorem keys_nodup_filter_length {κ ν : Type} [BEq κ] [LawfulBEq κ]
    (m : List (κ × ν)) (k : κ)
    (h : (m.map Prod.fst).Nodup) : (m.filter (fun p => p.1 == k)).length ≤ 1 := by
  induction m with
  | nil => simp
  | cons p m ih =>
      rw [List.map_cons, List.nodup_cons] at h
      obtain ⟨h1, h2⟩ := h
      cases hqk : (p.1 == k) with
      | false => simpa [List.filter_cons, hqk] using ih h2
      | true =>
          have hp : p.1 = k := eq_of_beq hqk
          have hnil : m.filter (fun q => q.1 == k) = [] := by
            rw [List.filter_eq_nil_iff]
            intro q hq hqk'
            exact h1 (by
              rw [hp, ← eq_of_beq hqk']
              exact List.mem_map_of_mem Prod.fst hq)
          simp [List.filter_cons, hqk, hnil]

theorem handleData_tablesNodup (st : ServerState) (c : Nat) (rand : String) (d : Data)
    (h : tablesNodup st) : tablesNodup (handleData st c rand d).1 := by
  obtain ⟨h1, h2⟩ := h
  simp only [handleData]
  split_ifs with t1 t2 t3 t4 t5 t6 <;>
    first
      | exact ⟨mapSet_keys_nodup _ _ _ h1, h2⟩
      | exact ⟨h1, mapSet_keys_nodup _ _ _ h2⟩
      | (cases hm : mapGet st.subordinates d.id <;> exact ⟨h1, h2⟩)
      | (cases hm : mapGet st.coordinators d.id <;> exact ⟨h1, h2⟩)
      | (cases hm : iceTarget st d.id <;> exact ⟨h1, h2⟩)

theorem handleClose_tablesNodup (st : ServerState) (c : Nat)
    (h : tablesNodup st) : tablesNodup (handleClose st c).1 := by
  obtain ⟨h1, h2⟩ := h
  simp only [handleClose]
  split_ifs <;>
    refine ⟨?_, ?_⟩ <;>
    first
      | exact mapDelete_keys_nodup _ _ h1
      | exact mapDelete_keys_nodup _ _ h2
      | exact h1
      | exact h2

theorem step_tablesNodup (st : ServerState) (e : Event)
    (h : tablesNodup st) : tablesNodup (step st e) := by
  cases e with
  | msg c rand frame =>
      cases frame with
      | none => exact h
      | some d => exact handleData_tablesNodup st c rand d h
  | close c => exact handleClose_tablesNodup st c h

theorem run_tablesNodup (evs : List Event) : tablesNodup (run evs) := by
  have general : ∀ st, tablesNodup st → tablesNodup (evs.foldl step st) := by
    induction evs with
    | nil => exact fun st h => h
    | cons e evs ih =>
        intro st h
        exact ih (step st e) (step_tablesNodup st e h)
  exact general initState ⟨List.nodup_nil, List.nodup_nil⟩

/-- C6 counterexample: an inbound frame whose payload fails to parse is not
dropped-and-logged with the connection intact; `JSON.parse` is the first,
unguarded statement of the `message` handler, so the handler throws
(returns an error, never an ok drop-with-log result) at the concrete input
`none` on connection 0 of the initial state. -/
theorem malformed_frame_cex :
    handleFrame initState 0 "r" none = Except.error JsError.parseError := rfl

/-- C6 (amended): a frame that fails to parse makes the `message` handler
throw the `JSON.parse` exception uncaught — there is no drop-and-log path —
and since parsing precedes every mutation, the registry state is left
unchanged. -/
theorem malformed_frame_throws (st : ServerState) (c : Nat) (rand : String) :
    handleFrame st c rand none = Except.error JsError.parseError
  ∧ step st (Event.msg c rand none) = st :=
  ⟨rfl, rfl⟩

/-- C2 counterexample: a `register-coordinator` message with client-chosen
id `c` arriving on connection 0 of the fresh relay produces no outbound
message at all (in particular no `registered` reply), and the identifier
inserted into the coordinator table is the message's own `id` field, not a
relay-allocated one. -/
theorem register_coordinator_cex :
    sends (handleData initState 0 "r0"
        { type := "register-coordinator", id := some "c" }).2 = []
  ∧ (handleData initState 0 "r0"
        { type := "register-coordinator", id := some "c" }).1.coordinators
      = [(some "c", 0)] := by
  decide

/-- C2 (amended): on a `register-coordinator` message the relay does not
allocate an identifier: it takes the identifier from the envelope's `id`
field, stores that binding in the coordinator table, records it as the
connection's `ws.id`, and sends no reply of any kind. -/
theorem register_coordinator_behavior (st : ServerState) (c : Nat) (rand : String)
    (d : Data) (hty : d.type = "register-coordinator") :
    (handleData st c rand d).1.coordinators = mapSet st.coordinators d.id c
  ∧ (handleData st c rand d).1.subordinates = st.subordinates
  ∧ wsIdOf (handleData st c rand d).1 c = d.id
  ∧ sends (handleData st c rand d).2 = [] := by
  refine ⟨?_, ?_, ?_, ?_⟩
  · simp [handleData, hty]
  · simp [handleData, hty]
  · simp [handleData, hty, wsIdOf, mapGet_mapSet_self]
  · simp [handleData, hty, sends]

/-- Witness for `register_coordinator_behavior` at a concrete input. -/
theorem register_coordinator_behavior_witness :
    (handleData initState 3 "rr"
        { type := "register-coordinator", id := some "k" }).1.coordinators
      = mapSet initState.coordinators (some "k") 3
  ∧ (handleData initState 3 "rr"
        { type := "register-coordinator", id := some "k" }).1.subordinates
      = initState.subordinates
  ∧ wsIdOf (handleData initState 3 "rr"
        { type := "register-coordinator", id := some "k" }).1 3 = some "k"
  ∧ sends (handleData initState 3 "rr"
        { type := "register-coordinator", id := some "k" }).2 = [] :=
  register_coordinator_behavior initState 3 "rr"
    { type := "register-coordinator", id := some "k" } rfl

/-- C10: the relay's handling of any message, in particular
`register-subordinate`, is independent of the envelope's `width` and
`height` fields (the handler never reads them), and the `registered` reply
is the envelope carrying only a `type` and an `id` field — the geometry is
neither validated, stored (the relay state has no geometry component), nor
forwarded. -/
theorem register_geometry_independence (st : ServerState) (c : Nat) (rand : String)
    (d : Data) (w1 h1 w2 h2 : Option Nat) :
    handleData st c rand { d with width := w1, height := h1 } =
      handleData st c rand { d with width := w2, height := h2 }
  ∧ (d.type = "register-subordinate" →
      (handleData st c rand d).2 =
        [Effect.log "received: %s",
         Effect.log ("Subordinate registered with id " ++ generateUniqueId rand),
         Effect.send c { type := "registered", id := some (generateUniqueId rand) }]) := by
  refine ⟨rfl, ?_⟩
  intro hty
  simp [handleData, hty]

/-- Witness for `register_geometry_independence` at a concrete input. -/
theorem register_geometry_independence_witness :
    handleData initState 0 "abc"
        { type := "register-subordinate", width := some 1280, height := some 720 } =
      handleData initState 0 "abc"
        { type := "register-subordinate", width := none, height := none }
  ∧ (handleData initState 0 "abc"
        { type := "register-subordinate", width := some 999, height := some 1 }).2 =
      [Effect.log "received: %s",
       Effect.log ("Subordinate registered with id " ++ generateUniqueId "abc"),
       Effect.send 0 { type := "registered", id := some (generateUniqueId "abc") }] :=
  ⟨(register_geometry_independence initState 0 "abc"
      { type := "register-subordinate", width := some 999, height := some 1 }
      (some 1280) (some 720) none none).1,
   (register_geometry_independence initState 0 "abc"
      { type := "register-subordinate", width := some 999, height := some 1 }
      none none none none).2 rfl⟩

/-- C1 counterexample: with subordinate `x` live on connection 1 and the
sender registered as coordinator `c` on connection 0, an offer addressed to
`x` is delivered to connection 1 — but the delivered envelope carries no
`sourceId` field at all (it is absent, not the coordinator's identifier
`c`), refuting that `sourceId` is set to the sender's identifier. -/
theorem offer_no_sourceId_cex :
    sends (handleData (run evsPair) 0 "r"
        { type := "offer", id := some "x", offer := some "SDP" }).2
      = [(1, { type := "offer", offer := some "SDP" })]
  ∧ ({ type := "offer", offer := some "SDP" } : OutEnvelope).sourceId = none := by
  decide

/-- C1 (amended): an offer whose `id` resolves to a live subordinate
connection is forwarded to exactly that connection with type `offer` and a
byte-identical offer payload, but the forwarded envelope consists of the
`type` and `offer` fields only — no `sourceId` is attached. -/
theorem offer_forwarding (st : ServerState) (c : Nat) (rand : String) (d : Data)
    (t : Nat) (hty : d.type = "offer")
    (hm : mapGet st.subordinates d.id = some t) :
    (handleData st c rand d).1 = st
  ∧ (handleData st c rand d).2 =
      [Effect.log "received: %s",
       Effect.log ("Forwarding offer to subordinate " ++ showOpt d.id),
       Effect.send t { type := "offer", offer := d.offer }]
  ∧ ({ type := "offer", offer := d.offer } : OutEnvelope).sourceId = none := by
  refine ⟨?_, ?_, rfl⟩
  · simp [handleData, hty, hm]
  · simp [handleData, hty, hm]

/-- Witness for `offer_forwarding` at a concrete input. -/
theorem offer_forwarding_witness :
    (handleData (run evsPair) 0 "r"
        { type := "offer", id := some "x", offer := some "sdp-body" }).1 = run evsPair
  ∧ (handleData (run evsPair) 0 "r"
        { type := "offer", id := some "x", offer := some "sdp-body" }).2 =
      [Effect.log "received: %s",
       Effect.log ("Forwarding offer to subordinate " ++ showOpt (some "x")),
       Effect.send 1 { type := "offer", offer := some "sdp-body" }]
  ∧ ({ type := "offer", offer := some "sdp-body" } : OutEnvelope).sourceId = none :=
  offer_forwarding (run evsPair) 0 "r"
    { type := "offer", id := some "x", offer := some "sdp-body" } 1 rfl (by decide)

/-- C3 counterexample: the generator has no collision check, so when the
random token repeats (`a` for connection 5, then `a` again for connection
7), the second `register-subordinate` is handed an identifier that is
currently assigned to the live subordinate connection 5, and registering
overwrites that live entry: the table afterwards binds `a` to 7 only. -/
theorem register_subordinate_collision_cex :
    mapGet (run [Event.msg 5 "a" (some { type := "register-subordinate" })]).subordinates
        (some "a") = some 5
  ∧ (run evsCollision).subordinates = [(some "a", 7)] := by
  decide

/-- C3 (amended): a `register-subordinate` message binds the raw random
token to the connection and replies `registered` with that token; no
collision check is performed, so when the token is fresh the table grows by
one entry, and when it collides with a live identifier the existing entry
is silently overwritten (other keys are untouched either way). -/
theorem register_subordinate_behavior (st : ServerState) (c : Nat) (rand : String)
    (d : Data) (hty : d.type = "register-subordinate") :
    mapGet (handleData st c rand d).1.subordinates (some (generateUniqueId rand)) = some c
  ∧ (∀ k, k ≠ some (generateUniqueId rand) →
      mapGet (handleData st c rand d).1.subordinates k = mapGet st.subordinates k)
  ∧ sends (handleData st c rand d).2 =
      [(c, { type := "registered", id := some (generateUniqueId rand) })]
  ∧ (mapHas st.subordinates (some (generateUniqueId rand)) = false →
      (handleData st c rand d).1.subordinates
        = st.subordinates ++ [(some (generateUniqueId rand), c)]) := by
  refine ⟨?_, ?_, ?_, ?_⟩
  · simp [handleData, hty, generateUniqueId, mapGet_mapSet_self]
  · intro k hk
    simp [handleData, hty, generateUniqueId]
    exact mapGet_mapSet_ne _ _ _ _ hk
  · simp [handleData, hty, generateUniqueId, sends]
  · intro hh
    simp [handleData, hty, generateUniqueId]
    exact mapSet_of_not_has _ _ _ hh

/-- Witness for `register_subordinate_behavior` at a concrete input. -/
theorem register_subordinate_behavior_witness :
    mapGet (handleData initState 4 "w1"
        { type := "register-subordinate" }).1.subordinates
        (some (generateUniqueId "w1")) = some 4
  ∧ mapGet (handleData initState 4 "w1"
        { type := "register-subordinate" }).1.subordinates (some "zz")
      = mapGet initState.subordinates (some "zz")
  ∧ sends (handleData initState 4 "w1" { type := "register-subordinate" }).2 =
      [(4, { type := "registered", id := some (generateUniqueId "w1") })]
  ∧ (handleData initState 4 "w1" { type := "register-subordinate" }).1.subordinates
      = initState.subordinates ++ [(some (generateUniqueId "w1"), 4)] := by
  have h := register_subordinate_behavior initState 4 "w1"
    { type := "register-subordinate" } rfl
  exact ⟨h.1, h.2.1 (some "zz") (by decide), h.2.2.1, h.2.2.2 (by decide)⟩

/-- C7: a routed envelope (`offer`, `answer`, or `ice-candidate`) whose
target identifier has no live entry in the relevant table — the subordinate
table for offers, the coordinator table for answers, either table for ICE
candidates — is dropped: the relay's state is unchanged, at least one local
log line is emitted, and no message whatsoever is sent, to the sender or to
anyone (identical reply behavior to never having received the envelope). -/
theorem unresolved_target_silent_drop (st : ServerState) (c : Nat) (rand : String)
    (d : Data)
    (h : (d.type = "offer" ∧ mapGet st.subordinates d.id = none)
       ∨ (d.type = "answer" ∧ mapGet st.coordinators d.id = none)
       ∨ (d.type = "ice-candidate" ∧ mapGet st.subordinates d.id = none
            ∧ mapGet st.coordinators d.id = none)) :
    sends (handleData st c rand d).2 = []
  ∧ logs (handleData st c rand d).2 ≠ []
  ∧ (handleData st c rand d).1 = st := by
  rcases h with ⟨hty, hm⟩ | ⟨hty, hm⟩ | ⟨hty, hm1, hm2⟩
  · refine ⟨?_, ?_, ?_⟩ <;> simp [handleData, hty, hm, sends, logs]
  · refine ⟨?_, ?_, ?_⟩ <;> simp [handleData, hty, hm, sends, logs]
  · have htar : iceTarget st d.id = none := by
      simp [iceTarget, mapHas, hm1, hm2]
    refine ⟨?_, ?_, ?_⟩ <;> simp [handleData, hty, htar, sends, logs]

/-- Witness for `unresolved_target_silent_drop` at a concrete input: an
offer addressed to the unregistered identifier `z` on the fresh relay. -/
theorem unresolved_target_silent_drop_witness :
    sends (handleData initState 0 "r" { type := "offer", id := some "z" }).2 = []
  ∧ logs (handleData initState 0 "r" { type := "offer", id := some "z" }).2 ≠ []
  ∧ (handleData initState 0 "r" { type := "offer", id := some "z" }).1 = initState :=
  unresolved_target_silent_drop initState 0 "r" { type := "offer", id := some "z" }
    (Or.inl ⟨rfl, rfl⟩)

/-- Handling an `ice-candidate` envelope never changes the relay state. -/
theorem handleData_ice_state (st : ServerState) (c : Nat) (rand : String) (d : Data)
    (hty : d.type = "ice-candidate") : (handleData st c rand d).1 = st := by
  cases hm : iceTarget st d.id <;> simp [handleData, hty, hm]

/-- C8: an `ice-candidate` envelope is resolved against the subordinate
table first (a live subordinate entry wins even if the coordinator table
also holds the identifier) and against the coordinator table otherwise; and
two ICE candidates arriving in sequence for the same live target are both
forwarded to it, in arrival order, with neither dropped. -/
theorem ice_candidate_routing (st : ServerState) (c1 c2 : Nat) (r1 r2 : String)
    (kid : Option String) (cand1 cand2 : String) (t u : Nat) :
    (mapGet st.subordinates kid = some u → iceTarget st kid = some u)
  ∧ (mapHas st.subordinates kid = false →
      iceTarget st kid = mapGet st.coordinators kid)
  ∧ (iceTarget st kid = some t →
      sends ((handleData st c1 r1
          { type := "ice-candidate", id := kid, candidate := some cand1 }).2
        ++ (handleData (handleData st c1 r1
              { type := "ice-candidate", id := kid, candidate := some cand1 }).1
            c2 r2 { type := "ice-candidate", id := kid, candidate := some cand2 }).2)
        = [(t, { type := "ice-candidate", candidate := some cand1 }),
           (t, { type := "ice-candidate", candidate := some cand2 })]) := by
  refine ⟨?_, ?_, ?_⟩
  · intro hm
    simp [iceTarget, mapHas, hm]
  · intro hh
    simp [iceTarget, hh]
  · intro ht
    rw [handleData_ice_state st c1 r1 _ rfl]
    simp [sends, List.filterMap_append, handleData, ht]

/-- Witness for `ice_candidate_routing` at a concrete input: subordinate
`x` live on connection 1. -/
theorem ice_candidate_routing_witness :
    iceTarget (run evsSub) (some "x") = some 1
  ∧ iceTarget (run evsSub) (some "nope") = mapGet (run evsSub).coordinators (some "nope")
  ∧ sends ((handleData (run evsSub) 0 "p"
        { type := "ice-candidate", id := some "x", candidate := some "c1" }).2
      ++ (handleData (handleData (run evsSub) 0 "p"
            { type := "ice-candidate", id := some "x", candidate := some "c1" }).1
          0 "q" { type := "ice-candidate", id := some "x", candidate := some "c2" }).2)
      = [(1, { type := "ice-candidate", candidate := some "c1" }),
         (1, { type := "ice-candidate", candidate := some "c2" })] :=
  ⟨(ice_candidate_routing (run evsSub) 0 0 "p" "q" (some "x") "c1" "c2" 1 1).1
      (by decide),
   (ice_candidate_routing (run evsSub) 0 0 "p" "q" (some "nope") "c1" "c2" 1 1).2.1
      (by decide),
   (ice_candidate_routing (run evsSub) 0 0 "p" "q" (some "x") "c1" "c2" 1 1).2.2
      (by decide)⟩

/-- C4 counterexample: the state reached by connection 0 sending
`register-subordinate` (drawing id `a`) and then `register-coordinator`
with id `b` is reachable, and in it the single connection handle 0 occupies
two registry entries — one in each table — refuting that a connection only
ever occupies one entry. -/
theorem registry_single_occupancy_cex :
    entryCount (run evsBothRoles) 0 = 2
  ∧ ¬ entryCount (run evsBothRoles) 0 ≤ 1 := by
  decide

/-- C4 (amended): in every reachable relay state each session identifier
maps to at most one live entry per role table (the tables are genuine maps:
their key lists stay duplicate-free under every register and disconnect
event); the cross-table half of the claim fails, since a connection that
sends several register messages occupies several entries. -/
theorem registry_per_table_at_most_one (evs : List Event) (k : Option String) :
    ((run evs).subordinates.filter (fun p => p.1 == k)).length ≤ 1
  ∧ ((run evs).coordinators.filter (fun p => p.1 == k)).length ≤ 1 := by
  obtain ⟨h1, h2⟩ := run_tablesNodup evs
  exact ⟨keys_nodup_filter_length _ _ h1, keys_nodup_filter_length _ _ h2⟩

/-- Closed form of the subordinate table after a `close` event. -/
theorem handleClose_subordinates (st : ServerState) (c : Nat) :
    (handleClose st c).1.subordinates =
      if mapHas st.subordinates (wsIdOf st c) then
        mapDelete st.subordinates (wsIdOf st c)
      else st.subordinates := by
  simp only [handleClose]
  split_ifs <;> rfl

/-- Closed form of the coordinator table after a `close` event. -/
theorem handleClose_coordinators (st : ServerState) (c : Nat) :
    (handleClose st c).1.coordinators =
      if mapHas st.coordinators (wsIdOf st c) then
        mapDelete st.coordinators (wsIdOf st c)
      else st.coordinators := by
  simp only [handleClose]
  split_ifs <;> rfl

/-- C5 counterexample: connection 1 registers twice as a subordinate (ids
`a` then `b`) and disconnects.  The close handler removes only the entry
keyed by the current `ws.id` (`b`), so the entry `a ↦ 1` survives the
disconnect, and a subsequent offer addressed to `a` is sent to the stale,
closed handle 1 — refuting that routes to a disconnected connection's
identifier are always dropped. -/
theorem stale_handle_send_cex :
    (run evsStale).subordinates = [(some "a", 1)]
  ∧ sends (handleData (run evsStale) 0 "r"
        { type := "offer", id := some "a", offer := some "o" }).2
      = [(1, { type := "offer", offer := some "o" })] := by
  decide

/-- C5 (amended): a `close` event deterministically removes every entry
keyed by the connection's current `ws.id` — afterwards that key resolves in
neither table, all other keys are untouched, and a handle registered under
no table key at all is a no-op — and any subsequently routed `offer`,
`answer` or `ice-candidate` whose id then resolves in neither table
produces no send.  (Entries the connection created under a different,
earlier `ws.id` are not removed; routing to such a leftover identifier
still reaches the stale handle, as the counterexample shows.) -/
theorem close_unregister_behavior (st : ServerState) (c : Nat) :
    mapGet (handleClose st c).1.subordinates (wsIdOf st c) = none
  ∧ mapGet (handleClose st c).1.coordinators (wsIdOf st c) = none
  ∧ (∀ k, k ≠ wsIdOf st c →
        mapGet (handleClose st c).1.subordinates k = mapGet st.subordinates k
      ∧ mapGet (handleClose st c).1.coordinators k = mapGet st.coordinators k)
  ∧ (mapHas st.subordinates (wsIdOf st c) = false →
     mapHas st.coordinators (wsIdOf st c) = false →
     (handleClose st c).1 = st)
  ∧ (∀ c2 rand (d : Data),
      (d.type = "offer" ∨ d.type = "answer" ∨ d.type = "ice-candidate") →
      mapGet (handleClose st c).1.subordinates d.id = none →
      mapGet (handleClose st c).1.coordinators d.id = none →
      sends (handleData (handleClose st c).1 c2 rand d).2 = []) := by
  refine ⟨?_, ?_, ?_, ?_, ?_⟩
  · rw [handleClose_subordinates]
    split_ifs with hh
    · exact mapGet_mapDelete_self _ _
    · exact (mapHas_eq_false_iff _ _).mp (by simpa using hh)
  · rw [handleClose_coordinators]
    split_ifs with hh
    · exact mapGet_mapDelete_self _ _
    · exact (mapHas_eq_false_iff _ _).mp (by simpa using hh)
  · intro k hk
    rw [handleClose_subordinates, handleClose_coordinators]
    constructor
    · split_ifs with hh
      · exact mapGet_mapDelete_ne _ _ _ hk
      · rfl
    · split_ifs with hh
      · exact mapGet_mapDelete_ne _ _ _ hk
      · rfl
  · intro hs hc2
    simp [handleClose, hs, hc2]
  · intro c2 rand d hty hs hc2
    rcases hty with hty | hty | hty
    · simp [handleData, hty, hs, sends]
    · simp [handleData, hty, hc2, sends]
    · have htar : iceTarget (handleClose st c).1 d.id = none := by
        simp [iceTarget, mapHas, hs, hc2]
      simp [handleData, hty, htar, sends]

/-- Witness for `close_unregister_behavior` at a concrete input: the state
with subordinate `x` on connection 1, closing connection 1. -/
theorem close_unregister_behavior_witness :
    mapGet (handleClose (run evsSub) 1).1.subordinates (wsIdOf (run evsSub) 1) = none
  ∧ mapGet (handleClose (run evsSub) 1).1.coordinators (wsIdOf (run evsSub) 1) = none
  ∧ (mapGet (handleClose (run evsSub) 1).1.subordinates (some "other")
        = mapGet (run evsSub).subordinates (some "other")
      ∧ mapGet (handleClose (run evsSub) 1).1.coordinators (some "other")
        = mapGet (run evsSub).coordinators (some "other"))
  ∧ (handleClose (run evsSub) 0).1 = run evsSub
  ∧ sends (handleData (handleClose (run evsSub) 1).1 0 "r"
        { type := "offer", id := some "x", offer := some "o" }).2 = [] := by
  have h1 := close_unregister_behavior (run evsSub) 1
  have h0 := close_unregister_behavior (run evsSub) 0
  exact ⟨h1.1, h1.2.1,
    h1.2.2.1 (some "other") (by decide),
    h0.2.2.2.1 (by decide) (by decide),
    h1.2.2.2.2 0 "r" { type := "offer", id := some "x", offer := some "o" }
      (Or.inl rfl) (by decide) (by decide)⟩

theorem cstep_clientInv (s : ClientState) (e : CEvent) (h : clientInv s) :
    clientInv (cstep s e) := by
  obtain ⟨h1, h2⟩ := h
  cases e with
  | fullscreenComplete w hh =>
      refine ⟨fun _ => ?_, fun hf => ?_⟩
      · cases hc : s.wsCreated <;>
          simp [cstep, handleFullscreenComplete, connectWebSocket, hc]
      · cases hc : s.wsCreated <;>
          simp [cstep, handleFullscreenComplete, connectWebSocket, hc] at hf
  | wsOpen =>
      cases hb : (s.wsCreated && !s.wsOpened) with
      | false =>
          have hstep : cstep s CEvent.wsOpen = s := by simp [cstep, hb]
          rw [hstep]
          exact ⟨h1, h2⟩
      | true =>
          have hcr : s.wsCreated = true := by
            cases hq : s.wsCreated
            · rw [hq] at hb
              simp at hb
            · rfl
          have hop : s.wsOpened = false := by
            cases hq : s.wsOpened
            · rfl
            · rw [hcr, hq] at hb
              simp at hb
          obtain ⟨wh, hwh⟩ : ∃ wh, s.displaySize = some wh := by
            have hds := h1 hcr
            cases hq : s.displaySize
            · rw [hq] at hds
              simp at hds
            · exact ⟨_, rfl⟩
          refine ⟨fun _ => ?_, fun hf => ?_⟩
          · simp [cstep, hb, hwh, hcr, hop]
          · simp [cstep, hb, hwh, hcr, hop] at hf
  | registeredMsg id =>
      cases hc : s.wsCreated with
      | false =>
          simp [cstep, hc]
          exact ⟨h1, h2⟩
      | true =>
          refine ⟨fun _ => ?_, fun hf => ?_⟩
          · simpa [cstep, hc] using h1 hc
          · simp [cstep, hc] at hf
  | offerMsg srcId ans ok =>
      cases hc : s.wsCreated with
      | false =>
          simp [cstep, hc]
          exact ⟨h1, h2⟩
      | true =>
          refine ⟨fun _ => ?_, fun hf => ?_⟩
          · cases ok <;> simpa [cstep, hc] using h1 hc
          · cases ok <;> simp [cstep, hc] at hf
  | localIceCandidate cand =>
      cases hc : s.wsCreated with
      | false =>
          simp [cstep, hc]
          exact ⟨h1, h2⟩
      | true =>
          refine ⟨fun _ => ?_, fun hf => ?_⟩
          · simpa [cstep, hc] using h1 hc
          · simp [cstep, hc] at hf

theorem crun_clientInv (evs : List CEvent) : clientInv (crun evs) := by
  have general : ∀ s, clientInv s → clientInv (evs.foldl cstep s) := by
    induction evs with
    | nil => exact fun s h => h
    | cons e evs ih => exact fun s h => ih (cstep s e) (cstep_clientInv s e h)
  exact general initClient ⟨fun h => absurd h (by simp [initClient]), fun _ => rfl⟩

/-- C9: in every reachable state of the subordinate client the signaling
socket exists only after the display geometry has been captured (so the
channel is never opened, and hence nothing — in particular no
`register-subordinate` envelope — is ever sent, before capture), and the
`onopen` handler sends exactly one `register-subordinate` envelope carrying
the width and height currently held in the captured `displaySize`. -/
theorem subordinate_geometry_before_channel :
    (∀ evs : List CEvent,
        ((crun evs).wsCreated = true → (crun evs).displaySize.isSome = true)
      ∧ ((crun evs).wsCreated = false → (crun evs).sent = []))
  ∧ (∀ (s : ClientState) (w h : Nat),
      s.wsCreated = true → s.wsOpened = false → s.displaySize = some (w, h) →
      (cstep s CEvent.wsOpen).sent = s.sent ++ [ClientMsg.registerSubordinate w h]) := by
  constructor
  · exact fun evs => crun_clientInv evs
  · intro s w h hcr hop hds
    simp [cstep, hcr, hop, hds]

/-- Witness for `subordinate_geometry_before_channel` at concrete inputs:
the trace capturing 1280×720 and connecting, the empty trace, and the open
event on the captured-and-connecting state. -/
theorem subordinate_geometry_before_channel_witness :
    (crun [CEvent.fullscreenComplete 1280 720]).displaySize.isSome = true
  ∧ (crun []).sent = []
  ∧ (cstep { wsCreated := true, wsOpened := false, displaySize := some (1280, 720),
             myId := none, coordinatorId := none, sent := [] } CEvent.wsOpen).sent
      = [] ++ [ClientMsg.registerSubordinate 1280 720] :=
  ⟨(subordinate_geometry_before_channel.1 [CEvent.fullscreenComplete 1280 720]).1
      (by decide),
   (subordinate_geometry_before_channel.1 []).2 (by decide),
   subordinate_geometry_before_channel.2
      { wsCreated := true, wsOpened := false, displaySize := some (1280, 720),
        myId := none, coordinatorId := none, sent := [] } 1280 720 rfl rfl rfl⟩

end Phosaic
